import Mathlib

/-!
Shallow embedding of the agent lifecycle manager of capsulate-repo
(`pkg/agent/manager.go`) together with theorems settling the spec claims.

External effects (Docker API calls, host `mkdir`, in-container command
execution) are modelled by explicit state passing over a container-runtime
state plus a `World` of call outcomes (fault injections), and every
attempted external call is recorded in an event trace.
-/

namespace Capsulate

/-- Configuration for a git-isolate agent (`AgentConfig`, manager.go 18-30).
`gitConfig` is a Go `map[string]string`; Go map iteration order is
unspecified, the list here fixes one order of application. -/
structure AgentConfig where
  id : String
  dependencyLevel : String
  teamID : String
  overrideDeps : List String
  useOverlay : Bool
  repoURL : String
  branch : String
  depth : Nat
  gitConfig : List (String × String)
  deriving Repr, DecidableEq

/-- Status of the Git repository in an agent (`GitStatus`, manager.go 32-40).
Go `int` counts are modelled as `Int`. -/
structure GitStatus where
  branch : String
  currentCommit : String
  modifiedFiles : List String
  untrackedFiles : List String
  aheadCount : Int
  behindCount : Int
  deriving Repr, DecidableEq

/-- `filepath.Join` on already clean segments (all paths in the manager are
built from clean components). -/
def joinPath (a b : String) : String := a ++ "/" ++ b

/-- The manager's path fields (`Manager`, manager.go 42-56).  The Docker
client itself lives in `World`/`DState` below.  `teamDepsPath` is the
`map[string]string` of team-tier directories, modelled as an association
list. -/
structure Manager where
  baseImageName : String
  sshDir : String
  workspaceDir : String
  coreDepsPath : String
  teamDepsPath : List (String × String)
  containerDepsPath : String
  baseRepoPath : String
  diffsPath : String
  workPath : String
  deriving Repr, DecidableEq

/-- Path initialisation of `NewManager` (manager.go 59-97); the host
directory creation and Docker-client construction are outside the claims. -/
def mkManager (sshDir workspaceDir : String) : Manager :=
  { baseImageName := "capsulate-base:latest"
    sshDir := sshDir
    workspaceDir := workspaceDir
    coreDepsPath := joinPath workspaceDir ".capsulate/dependencies/core"
    teamDepsPath := []
    containerDepsPath := joinPath workspaceDir ".capsulate/dependencies/container"
    baseRepoPath := joinPath workspaceDir ".capsulate/overlay/base"
    diffsPath := joinPath workspaceDir ".capsulate/overlay/diffs"
    workPath := joinPath workspaceDir ".capsulate/overlay/work" }

/-! ## The generated dependency setup script (manager.go 286-322) -/

/-- The raw script template of `generateDependencySetupScript`
(manager.go 287-319) with the five `%s` verbs substituted as in
`fmt.Sprintf(script, overrideDeps, config.DependencyLevel, overrideDeps,
overrideDeps, overrideDeps)` (manager.go 320-321), where `overrideDeps`
is `strings.Join(config.OverrideDeps, " ")`. -/
def generateDependencySetupScript (cfg : AgentConfig) : String :=
  let ovr := String.intercalate " " cfg.overrideDeps
  "#!/bin/bash\n# Set up node_modules directory\nmkdir -p /workspace/node_modules\n\n"
  ++ "# Link core dependencies if available\n"
  ++ "if [ -d \"/workspace/core-deps\" ]; then\n"
  ++ "    for pkg in $(find /workspace/core-deps -maxdepth 1 -type d ! -path \"/workspace/core-deps\"); do\n"
  ++ "        pkg_name=$(basename $pkg)\n"
  ++ "        # Don\x27t link if it\x27s in the override list\n"
  ++ "        if [[ ! \" " ++ ovr ++ " \" =~ \" $pkg_name \" ]]; then\n"
  ++ "            ln -sf \"$pkg\" \"/workspace/node_modules/$pkg_name\"\n"
  ++ "        fi\n    done\nfi\n\n"
  ++ "# Link team dependencies if available\n"
  ++ "if [ \"" ++ cfg.dependencyLevel ++ "\" = \"team\" ] && [ -d \"/workspace/team-deps\" ]; then\n"
  ++ "    for pkg in $(find /workspace/team-deps -maxdepth 1 -type d ! -path \"/workspace/team-deps\"); do\n"
  ++ "        pkg_name=$(basename $pkg)\n"
  ++ "        # Don\x27t link if it\x27s in the override list\n"
  ++ "        if [[ ! \" " ++ ovr ++ " \" =~ \" $pkg_name \" ]]; then\n"
  ++ "            ln -sf \"$pkg\" \"/workspace/node_modules/$pkg_name\"\n"
  ++ "        fi\n    done\nfi\n\n"
  ++ "# Set up container-specific overrides\n"
  ++ "if [ -n \"" ++ ovr ++ "\" ] && [ -d \"/workspace/container-deps\" ]; then\n"
  ++ "    # Install override dependencies (simplified example)\n"
  ++ "    echo \"Setting up container-specific dependencies: " ++ ovr ++ "\"\n"
  ++ "    # In a real implementation, this would run npm/yarn install for those packages\nfi\n"

/-- The three dependency tiers a `node_modules` symlink can point into
(`/workspace/core-deps`, `/workspace/team-deps`,
`/workspace/container-deps`). -/
inductive Tier where
  | core
  | team
  | container
  deriving Repr, DecidableEq

/-- Is `pat` a prefix of the second list? -/
def isPrefixList : List Char → List Char → Bool
  | [], _ => true
  | _ :: _, [] => false
  | a :: as, b :: bs => a == b && isPrefixList as bs

/-- Does `pat` occur as a contiguous sublist? -/
def containsList (pat : List Char) : List Char → Bool
  | [] => isPrefixList pat []
  | c :: cs => isPrefixList pat (c :: cs) || containsList pat cs

/-- The script's override-membership test
`[[ " <overrides joined by spaces> " =~ " $pkg_name " ]]`: bash `=~` with
a plain-text pattern is a substring test, here for the space-padded
package name inside the space-padded joined override list.  For
space-free package names this coincides with list membership in
`overrideDeps`. -/
def bashWordIn (needle hay : String) : Bool :=
  containsList (" " ++ needle ++ " ").data (" " ++ hay ++ " ").data

/-- The override test the generated script applies to a package name,
with the script's substituted override string. -/
def overrideHit (cfg : AgentConfig) (p : String) : Bool :=
  bashWordIn p (String.intercalate " " cfg.overrideDeps)

/-- Effect of one `ln -sf "$pkg" "/workspace/node_modules/$pkg_name"`:
the link is created, force-replacing any existing link of that name. -/
def lnForce (links : List (String × Tier)) (p : String) (t : Tier) :
    List (String × Tier) :=
  if links.any (fun q => q.1 == p) then
    links.map (fun q => if q.1 == p then (p, t) else q)
  else
    links ++ [(p, t)]

/-- One tier-linking loop of the script (`for pkg in $(find ...); do ... done`):
each package subdirectory found in the tier mount is linked into
`node_modules` unless the override test matches it. -/
def linkPass (cfg : AgentConfig) (t : Tier) (pkgs : List String)
    (links : List (String × Tier)) : List (String × Tier) :=
  pkgs.foldl (fun acc p => if overrideHit cfg p then acc else lnForce acc p t) links

/-- Semantics of executing the script of `generateDependencySetupScript`
inside the container: the final map of `node_modules` symlinks.
`coreMounted`/`teamMounted` are the script's `[ -d ... ]` checks on the
tier mounts, `corePkgs`/`teamPkgs` the package subdirectories its `find`
enumerates, in order.  The core loop runs first; the team loop runs
afterwards iff the substituted dependency level equals `"team"`, so its
`ln -sf` links replace same-named core links.  The final override stanza
only `echo`s the override names (manager.go 313-318) and creates no
links. -/
def runDepScript (cfg : AgentConfig) (coreMounted : Bool) (corePkgs : List String)
    (teamMounted : Bool) (teamPkgs : List String) : List (String × Tier) :=
  if cfg.dependencyLevel == "team" && teamMounted then
    linkPass cfg .team teamPkgs
      (if coreMounted then linkPass cfg .core corePkgs [] else [])
  else
    (if coreMounted then linkPass cfg .core corePkgs [] else [])

/-- What a package name resolves to in the linked `node_modules`
directory: the tier its symlink points into, if any link exists. -/
def resolvesTo (links : List (String × Tier)) (p : String) : Option Tier :=
  (links.find? (fun q => q.1 == p)).map (fun q => q.2)

/-! ## The container runtime model -/

/-- One container known to the runtime, as reported by `ContainerList`. -/
structure Ctr where
  id : String
  names : List String
  running : Bool
  deriving Repr, DecidableEq

/-- The container runtime's state: the containers it holds. -/
abbrev DState := List Ctr

/-- Externally visible calls the manager makes, recorded in order of
attempt.  Container events carry the container name the call concerns. -/
inductive Ev where
  | imageList
  | imagePull (ref : String)
  | containerList (all : Bool)
  | mkdir (path : String)
  | containerCreate (name : String)
  | containerStart (name : String)
  | containerWait (name : String)
  | containerCommit (name image : String)
  | containerStop (name : String)
  | containerRemove (name : String)
  | execRun (cname cmd : String)
  deriving Repr, DecidableEq

/-- Outcomes of the external calls (fault injection): which Docker/host
calls succeed, which image tags exist, and the in-container stdout/exit
code of each executed command. -/
structure World where
  imageListOk : Bool
  imageTags : List String
  tempDirOk : Bool
  writeFileOk : Bool
  pullOk : Bool
  builderCreateOk : Bool
  builderStartOk : Bool
  builderWaitOk : Bool
  commitOk : Bool
  builderRemoveOk : Bool
  listOk : Bool
  coreDepsExist : Bool
  mkdirWorkspaceOk : Bool
  createOk : Bool
  startOk : Bool
  execInfraOk : Bool
  execExit : String → Nat
  execOutput : String → String
  stopOk : Bool
  removeOk : Bool

def setRunning (s : DState) (cid : String) (b : Bool) : DState :=
  s.map fun c => if c.id == cid then { c with running := b } else c

def removeCtrId (s : DState) (cid : String) : DState :=
  s.filter fun c => c.id != cid

/-- The container-lookup loop of `Exec`/`Destroy` (manager.go 373-381 and
528-536): iterate the listed containers and their names, overwriting
`containerID` on a match; the `break` leaves only the inner loop, so the
last matching container wins. -/
def findNamed (s : DState) (cname : String) : Option String :=
  s.foldl (fun acc c => if c.names.contains ("/" ++ cname) then some c.id else acc) none

/-- Decidable equality for `Except`, used to evaluate operation outcomes
on concrete inputs. -/
def exceptDecEq {ε α : Type} [DecidableEq ε] [DecidableEq α] :
    (x y : Except ε α) → Decidable (x = y)
  | .ok a, .ok b =>
    if h : a = b then isTrue (congrArg Except.ok h)
    else isFalse (fun hc => h (Except.ok.inj hc))
  | .error a, .error b =>
    if h : a = b then isTrue (congrArg Except.error h)
    else isFalse (fun hc => h (Except.error.inj hc))
  | .ok _, .error _ => isFalse (fun hc => Except.noConfusion hc)
  | .error _, .ok _ => isFalse (fun hc => Except.noConfusion hc)

instance {ε α : Type} [DecidableEq ε] [DecidableEq α] : DecidableEq (Except ε α) :=
  exceptDecEq

structure EnsureResult where
  trace : List Ev
  state : DState
  err : Option String
  deriving Repr, DecidableEq

structure ExecResult where
  trace : List Ev
  out : Except String String
  deriving Repr, DecidableEq

structure CreateResult where
  trace : List Ev
  state : DState
  mgr : Manager
  err : Option String
  deriving Repr, DecidableEq

structure OpResult where
  trace : List Ev
  state : DState
  err : Option String
  deriving Repr, DecidableEq

structure GitResult where
  trace : List Ev
  err : Option String
  deriving Repr, DecidableEq

structure StatusResult where
  trace : List Ev
  res : Except String GitStatus
  deriving Repr, DecidableEq

/-- Name of the temporary image-builder container (manager.go 620). -/
def builderName : String := "capsulate-image-builder"

/-- `Manager.ensureBaseImage` (manager.go 557-670): list images; if the
base tag is present, done.  Otherwise create a temp build-context dir and
Dockerfile on the host, pull `ubuntu:22.04`, run a temporary builder
container installing git, wait for it, commit it as the base image, and
remove it.  Every failure returns the wrapped error shown. -/
def ensureBaseImage (w : World) (m : Manager) (s : DState) : EnsureResult :=
  if !w.imageListOk then
    { trace := [.imageList], state := s, err := some "failed to list images" }
  else if w.imageTags.contains m.baseImageName then
    { trace := [.imageList], state := s, err := none }
  else if !w.tempDirOk then
    { trace := [.imageList], state := s, err := some "failed to create temp directory" }
  else if !w.writeFileOk then
    { trace := [.imageList], state := s, err := some "failed to write Dockerfile" }
  else if !w.pullOk then
    { trace := [.imageList, .imagePull "ubuntu:22.04"], state := s,
      err := some "failed to pull ubuntu image" }
  else if !w.builderCreateOk then
    { trace := [.imageList, .imagePull "ubuntu:22.04", .containerCreate builderName],
      state := s, err := some "failed to create temp container" }
  else
    let s1 := s ++ [⟨"cid-" ++ builderName, ["/" ++ builderName], false⟩]
    if !w.builderStartOk then
      { trace := [.imageList, .imagePull "ubuntu:22.04", .containerCreate builderName,
                  .containerStart builderName],
        state := s1, err := some "failed to start temp container" }
    else
      let s2 := setRunning s1 ("cid-" ++ builderName) true
      if !w.builderWaitOk then
        { trace := [.imageList, .imagePull "ubuntu:22.04", .containerCreate builderName,
                    .containerStart builderName, .containerWait builderName],
          state := s2, err := some "container wait error" }
      else
        let s3 := setRunning s2 ("cid-" ++ builderName) false
        if !w.commitOk then
          { trace := [.imageList, .imagePull "ubuntu:22.04", .containerCreate builderName,
                      .containerStart builderName, .containerWait builderName,
                      .containerCommit builderName m.baseImageName],
            state := s3, err := some "failed to commit container" }
        else if !w.builderRemoveOk then
          { trace := [.imageList, .imagePull "ubuntu:22.04", .containerCreate builderName,
                      .containerStart builderName, .containerWait builderName,
                      .containerCommit builderName m.baseImageName,
                      .containerRemove builderName],
            state := s3, err := some "failed to remove temp container" }
        else
          { trace := [.imageList, .imagePull "ubuntu:22.04", .containerCreate builderName,
                      .containerStart builderName, .containerWait builderName,
                      .containerCommit builderName m.baseImageName,
                      .containerRemove builderName],
            state := removeCtrId s3 ("cid-" ++ builderName), err := none }

/-- `Manager.Exec` (manager.go 362-425): list the *running* containers
(`ContainerListOptions{}` — no `All`), find the agent's container by name,
then create/attach/inspect an exec instance.  The three Docker exec-API
failure modes are collapsed into one infrastructure failure; a non-zero
exit code is reported as `command exited with code N`. -/
def exec (w : World) (s : DState) (agentID cmd : String) : ExecResult :=
  let cname := "capsulate-" ++ agentID
  if !w.listOk then
    { trace := [.containerList false], out := .error "failed to list containers" }
  else
    match findNamed (s.filter (fun c => c.running)) cname with
    | none =>
      { trace := [.containerList false],
        out := .error ("agent \x27" ++ agentID ++ "\x27 not found or not running") }
    | some _cid =>
      if !w.execInfraOk then
        { trace := [.containerList false, .execRun cname cmd],
          out := .error "exec infrastructure failure" }
      else if w.execExit cmd != 0 then
        { trace := [.containerList false, .execRun cname cmd],
          out := .error ("command exited with code " ++ toString (w.execExit cmd)) }
      else
        { trace := [.containerList false, .execRun cname cmd],
          out := .ok (w.execOutput cmd) }

/-- A bind mount passed to `ContainerCreate` (manager.go 130-217). -/
structure Mnt where
  source : String
  target : String
  readOnly : Bool
  deriving Repr, DecidableEq

structure PlanResult where
  evs : List Ev
  mounts : List Mnt
  mgr : Manager
  deriving Repr, DecidableEq

/-- The mount preparation of `Create` (manager.go 129-217): SSH mount;
overlay triple (base read-only, per-agent diff and work) or the direct
workspace bind; core tier read-only iff it exists on disk; team tier
read-only iff `dependencyLevel == "team" && teamID != ""` (creating and
memoising the team directory on first reference); and the agent's
read-write container tier.  `evs` records the host `MkdirAll` calls made
along the way (their errors are ignored by the source). -/
def planMounts (w : World) (m : Manager) (cfg : AgentConfig) (agentWorkspace : String) :
    PlanResult :=
  let base : List Mnt := [⟨m.sshDir, "/root/.ssh", true⟩]
  let p1 : List Ev × List Mnt :=
    if cfg.useOverlay then
      let cdiff := joinPath m.diffsPath cfg.id
      let cwork := joinPath m.workPath cfg.id
      ([Ev.mkdir cdiff, Ev.mkdir cwork],
       base ++ [⟨m.baseRepoPath, "/workspace/base", true⟩,
                ⟨cdiff, "/workspace/diff", false⟩,
                ⟨cwork, "/workspace/work", false⟩])
    else
      ([], base ++ [⟨agentWorkspace, "/workspace", false⟩])
  let mounts2 :=
    if w.coreDepsExist then p1.2 ++ [⟨m.coreDepsPath, "/workspace/core-deps", true⟩]
    else p1.2
  let p3 : List Ev × List Mnt × Manager :=
    if cfg.dependencyLevel == "team" && cfg.teamID != "" then
      match m.teamDepsPath.find? (fun q => q.1 == cfg.teamID) with
      | some q => ([], mounts2 ++ [⟨q.2, "/workspace/team-deps", true⟩], m)
      | none =>
        let tp := joinPath m.workspaceDir (".capsulate/dependencies/team/" ++ cfg.teamID)
        ([Ev.mkdir tp], mounts2 ++ [⟨tp, "/workspace/team-deps", true⟩],
         { m with teamDepsPath := m.teamDepsPath ++ [(cfg.teamID, tp)] })
    else ([], mounts2, m)
  let cdeps := joinPath m.containerDepsPath cfg.id
  { evs := p1.1 ++ p3.1 ++ [Ev.mkdir cdeps],
    mounts := p3.2.1 ++ [⟨cdeps, "/workspace/container-deps", false⟩],
    mgr := p3.2.2 }

/-- The environment variables passed to the container (manager.go 220-226). -/
def buildEnv (cfg : AgentConfig) : List String :=
  [ "AGENT_ID=" ++ cfg.id,
    "DEPENDENCY_LEVEL=" ++ cfg.dependencyLevel,
    "TEAM_ID=" ++ cfg.teamID,
    "OVERRIDE_DEPS=" ++ String.intercalate "," cfg.overrideDeps,
    "USE_OVERLAY=" ++ (if cfg.useOverlay then "true" else "false") ]

/-- The overlay union-mount command `Create` runs inside the container
when `UseOverlay` is set (manager.go 255-257, a Go raw string literal
with its embedded newlines and tab indentation). -/
def overlaySetupCmd : String :=
  "mkdir -p /workspace/merged && \n\t\t\tmount -t overlay overlay -o lowerdir=/workspace/base,upperdir=/workspace/diff,workdir=/workspace/work /workspace/merged &&\n\t\t\tmkdir -p /workspace/merged/repo"

/-- The clone command built by `setupGitRepository` (manager.go 326-340). -/
def cloneCmdOf (cfg : AgentConfig) : String :=
  "git clone " ++ cfg.repoURL
    ++ (if cfg.branch != "" then " --branch " ++ cfg.branch else "")
    ++ (if cfg.depth > 0 then " --depth " ++ toString cfg.depth else "")
    ++ " /workspace/repo"

/-- One git-config application command (manager.go 351). -/
def gitConfigCmdOf (kv : String × String) : String :=
  "cd /workspace/repo && git config " ++ kv.1 ++ " \"" ++ kv.2 ++ "\""

/-- The git-config loop of `setupGitRepository` (manager.go 349-357),
stopping at the first failing application. -/
def applyGitConfigs (w : World) (s : DState) (agentID : String) :
    List (String × String) → GitResult
  | [] => { trace := [], err := none }
  | kv :: rest =>
    let r := exec w s agentID (gitConfigCmdOf kv)
    match r.out with
    | .error _ => { trace := r.trace, err := some ("failed to apply Git config " ++ kv.1) }
    | .ok _ =>
      let r2 := applyGitConfigs w s agentID rest
      { trace := r.trace ++ r2.trace, err := r2.err }

/-- `Manager.setupGitRepository` (manager.go 325-360): clone (with
optional `--branch`/`--depth`) into `/workspace/repo`, then apply the
supplied git-config pairs; nothing further.  (The source's
`if len(config.GitConfig) > 0` guard is redundant with an empty loop.) -/
def setupGitRepository (w : World) (s : DState) (cfg : AgentConfig) : GitResult :=
  let r := exec w s cfg.id (cloneCmdOf cfg)
  match r.out with
  | .error _ => { trace := r.trace, err := some "failed to clone repository" }
  | .ok _ =>
    let rc := applyGitConfigs w s cfg.id cfg.gitConfig
    { trace := r.trace ++ rc.trace, err := rc.err }

/-- `Manager.Create` (manager.go 100-283), step for step:
`ensureBaseImage` first — its returned error is *discarded* (line 104) —
then `ContainerList(All: true)` and the duplicate-name check, the agent
workspace `MkdirAll`, the mount preparation, `ContainerCreate`,
`ContainerStart`, the overlay mount (or plain repo `mkdir`) via `Exec`,
the dependency setup script via `Exec`, and, when a repository URL is
supplied, `setupGitRepository`.  No failure path stops or removes the
agent's container. -/
def create (w : World) (m : Manager) (s : DState) (cfg : AgentConfig) : CreateResult :=
  let er := ensureBaseImage w m s
  let t0 := er.trace
  let s0 := er.state
  let cname := "capsulate-" ++ cfg.id
  if !w.listOk then
    { trace := t0 ++ [.containerList true], state := s0, mgr := m,
      err := some "failed to list containers" }
  else if s0.any (fun c => c.names.contains ("/" ++ cname)) then
    { trace := t0 ++ [.containerList true], state := s0, mgr := m,
      err := some ("agent with ID \x27" ++ cfg.id ++ "\x27 already exists") }
  else
    let agentWorkspace := joinPath m.workspaceDir (".capsulate/workspaces/" ++ cfg.id)
    if !w.mkdirWorkspaceOk then
      { trace := t0 ++ [.containerList true, .mkdir agentWorkspace], state := s0, mgr := m,
        err := some "failed to create agent workspace directory" }
    else
      let pl := planMounts w m cfg agentWorkspace
      let t1 := t0 ++ [.containerList true, .mkdir agentWorkspace] ++ pl.evs
        ++ [.containerCreate cname]
      if !w.createOk then
        { trace := t1, state := s0, mgr := pl.mgr, err := some "failed to create container" }
      else
        let cid := "cid-" ++ cname
        let s1 := s0 ++ [⟨cid, ["/" ++ cname], false⟩]
        let t2 := t1 ++ [.containerStart cname]
        if !w.startOk then
          { trace := t2, state := s1, mgr := pl.mgr, err := some "failed to start container" }
        else
          let s2 := setRunning s1 cid true
          let bootCmd := if cfg.useOverlay then overlaySetupCmd else "mkdir -p /workspace/repo"
          let rb := exec w s2 cfg.id bootCmd
          match rb.out with
          | .error _ =>
            { trace := t2 ++ rb.trace, state := s2, mgr := pl.mgr,
              err := some (if cfg.useOverlay then "failed to set up overlay filesystem"
                           else "failed to create repo directory") }
          | .ok _ =>
            let rd := exec w s2 cfg.id (generateDependencySetupScript cfg)
            match rd.out with
            | .error _ =>
              { trace := t2 ++ rb.trace ++ rd.trace, state := s2, mgr := pl.mgr,
                err := some "failed to set up dependencies" }
            | .ok _ =>
              if cfg.repoURL != "" then
                let rg := setupGitRepository w s2 cfg
                { trace := t2 ++ rb.trace ++ rd.trace ++ rg.trace, state := s2,
                  mgr := pl.mgr, err := rg.err }
              else
                { trace := t2 ++ rb.trace ++ rd.trace, state := s2, mgr := pl.mgr,
                  err := none }

/-! ## Status, branch and destroy operations -/

def branchCmd : String := "cd /workspace/repo && git branch --show-current"
def commitCmd : String := "cd /workspace/repo && git rev-parse HEAD"
def modifiedCmd : String := "cd /workspace/repo && git diff --name-only"
def untrackedCmd : String := "cd /workspace/repo && git ls-files --others --exclude-standard"
def aheadBehindCmd : String :=
  "cd /workspace/repo && git rev-list --count --left-right @{upstream}...HEAD 2>/dev/null || echo \x270 0\x27"

/-- `strings.TrimSpace`: drop leading and trailing whitespace. -/
def goTrimSpace (s : String) : String :=
  ⟨((s.data.dropWhile Char.isWhitespace).reverse.dropWhile Char.isWhitespace).reverse⟩

/-- `strings.Split(s, sep)` for a single-character separator (splitting
the empty string yields `[""]`, as in Go). -/
def splitOnChar (sep : Char) : List Char → List (List Char)
  | [] => [[]]
  | c :: cs =>
    if c == sep then [] :: splitOnChar sep cs
    else
      match splitOnChar sep cs with
      | [] => [[c]]
      | h :: t => (c :: h) :: t

/-- `strings.Split(s, "\n")`. -/
def goSplitLines (s : String) : List String :=
  (splitOnChar (Char.ofNat 10) s.data).map (fun l => ⟨l⟩)

/-- Numeric value of a digit run. -/
def digitsVal (l : List Char) : Nat :=
  l.foldl (fun acc c => acc * 10 + (c.toNat - 48)) 0

/-- `fmt.Sscanf(s, "%d", &n)`: parse an optional sign and a leading digit
run; on no digits the scan fails and the target keeps its zero value. -/
def sscanfInt (s : String) : Int :=
  match s.data with
  | '-' :: rest =>
    let ds := rest.takeWhile Char.isDigit
    if ds.isEmpty then 0 else -(digitsVal ds : Int)
  | l =>
    let ds := l.takeWhile Char.isDigit
    if ds.isEmpty then 0 else (digitsVal ds : Int)

/-- Accumulating single pass behind `goFields`. -/
def fieldsAux : List Char → List Char → List (List Char)
  | [], acc => if acc.isEmpty then [] else [acc.reverse]
  | c :: cs, acc =>
    if Char.isWhitespace c then
      if acc.isEmpty then fieldsAux cs [] else acc.reverse :: fieldsAux cs []
    else fieldsAux cs (c :: acc)

/-- `strings.Fields`: split on whitespace runs, dropping empty fields. -/
def goFields (s : String) : List String :=
  (fieldsAux s.data []).map (fun l => ⟨l⟩)

/-- `Manager.GetGitStatus` (manager.go 427-485): four independent `Exec`
calls (branch, commit, modified files, untracked files), each failure
aborting with its wrapped error; then the best-effort ahead/behind
command whose failure is replaced by `"0 0"`.  `ahead` is scanned from
field 1 and `behind` from field 0 when at least two fields are present;
the modified/untracked outputs are trimmed and split on newlines only
when the raw output is non-empty. -/
def getGitStatus (w : World) (s : DState) (agentID : String) : StatusResult :=
  let r1 := exec w s agentID branchCmd
  match r1.out with
  | .error _ => { trace := r1.trace, res := .error "failed to get current branch" }
  | .ok o1 =>
    let r2 := exec w s agentID commitCmd
    match r2.out with
    | .error _ => { trace := r1.trace ++ r2.trace, res := .error "failed to get current commit" }
    | .ok o2 =>
      let r3 := exec w s agentID modifiedCmd
      match r3.out with
      | .error _ =>
        { trace := r1.trace ++ r2.trace ++ r3.trace,
          res := .error "failed to get modified files" }
      | .ok o3 =>
        let r4 := exec w s agentID untrackedCmd
        match r4.out with
        | .error _ =>
          { trace := r1.trace ++ r2.trace ++ r3.trace ++ r4.trace,
            res := .error "failed to get untracked files" }
        | .ok o4 =>
          let r5 := exec w s agentID aheadBehindCmd
          let ab := match r5.out with
            | .error _ => "0 0"
            | .ok o5 => o5
          let pair : Int × Int :=
            match goFields (goTrimSpace ab) with
            | b :: a :: _ => (sscanfInt a, sscanfInt b)
            | _ => (0, 0)
          { trace := r1.trace ++ r2.trace ++ r3.trace ++ r4.trace ++ r5.trace,
            res := .ok
              { branch := goTrimSpace o1
                currentCommit := goTrimSpace o2
                modifiedFiles := if o3 != "" then goSplitLines (goTrimSpace o3) else []
                untrackedFiles := if o4 != "" then goSplitLines (goTrimSpace o4) else []
                aheadCount := pair.1
                behindCount := pair.2 } }

/-- `Manager.CreateBranch` (manager.go 488-504). -/
def createBranch (w : World) (s : DState) (agentID branchName : String) (checkout : Bool) :
    GitResult :=
  let r := exec w s agentID ("cd /workspace/repo && git branch " ++ branchName)
  match r.out with
  | .error _ => { trace := r.trace, err := some "failed to create branch" }
  | .ok _ =>
    if checkout then
      let r2 := exec w s agentID ("cd /workspace/repo && git checkout " ++ branchName)
      match r2.out with
      | .error _ => { trace := r.trace ++ r2.trace, err := some "failed to checkout branch" }
      | .ok _ => { trace := r.trace ++ r2.trace, err := none }
    else { trace := r.trace, err := none }

/-- `Manager.CheckoutBranch` (manager.go 507-515). -/
def checkoutBranch (w : World) (s : DState) (agentID branchName : String) : GitResult :=
  let r := exec w s agentID ("cd /workspace/repo && git checkout " ++ branchName)
  match r.out with
  | .error _ => { trace := r.trace, err := some "failed to checkout branch" }
  | .ok _ => { trace := r.trace, err := none }

/-- `Manager.Destroy` (manager.go 518-554): list *all* containers
(`All: true`), find by name — last match wins, as in `Exec` — then stop
with a 10-second grace period and remove. -/
def destroy (w : World) (s : DState) (agentID : String) : OpResult :=
  let cname := "capsulate-" ++ agentID
  if !w.listOk then
    { trace := [.containerList true], state := s, err := some "failed to list containers" }
  else
    match findNamed s cname with
    | none =>
      { trace := [.containerList true], state := s,
        err := some ("agent \x27" ++ agentID ++ "\x27 not found") }
    | some cid =>
      if !w.stopOk then
        { trace := [.containerList true, .containerStop cname], state := s,
          err := some "failed to stop container" }
      else
        let s1 := setRunning s cid false
        if !w.removeOk then
          { trace := [.containerList true, .containerStop cname, .containerRemove cname],
            state := s1, err := some "failed to remove container" }
        else
          { trace := [.containerList true, .containerStop cname, .containerRemove cname],
            state := removeCtrId s1 cid, err := none }

/-! ## Concrete instances used by witnesses and counterexamples -/

/-- A world in which every external call succeeds, the base image is
already present, and every in-container command exits 0 with empty
output. -/
def happyWorld : World :=
  { imageListOk := true, imageTags := ["capsulate-base:latest"], tempDirOk := true,
    writeFileOk := true, pullOk := true, builderCreateOk := true, builderStartOk := true,
    builderWaitOk := true, commitOk := true, builderRemoveOk := true, listOk := true,
    coreDepsExist := true, mkdirWorkspaceOk := true, createOk := true, startOk := true,
    execInfraOk := true, execExit := fun _ => 0, execOutput := fun _ => "",
    stopOk := true, removeOk := true }

/-- A manager rooted at a fixed workspace. -/
def m0 : Manager := mkManager "/root/.ssh" "/ws"

/-! ## Lemmas on the dependency-link semantics -/

theorem bool_eq_false_of_ne_true {b : Bool} (h : ¬ b = true) : b = false := by
  cases b
  · rfl
  · exact absurd rfl h

theorem find?_map_replace (p : String) (t : Tier) :
    ∀ (l : List (String × Tier)), l.any (fun q => q.1 == p) = true →
      (l.map (fun q => if q.1 == p then (p, t) else q)).find? (fun q => q.1 == p)
        = some (p, t)
  | [], h => by simp at h
  | a :: l, h => by
    rw [List.map_cons]
    by_cases ha : a.1 = p
    · have he : (if a.1 == p then (p, t) else a) = (p, t) := by
        rw [if_pos (by exact beq_iff_eq.mpr ha)]
      rw [he]
      exact List.find?_cons_of_pos _ (by exact beq_self_eq_true p)
    · have ha' : (a.1 == p) = false := beq_eq_false_iff_ne.mpr ha
      have he : (if a.1 == p then (p, t) else a) = a := by rw [ha']; rfl
      rw [he, List.find?_cons_of_neg _ (by rw [ha']; exact Bool.false_ne_true)]
      exact find?_map_replace p t l (by simpa [List.any_cons, ha'] using h)

theorem find?_map_replace_other (p q : String) (t : Tier) (hpq : q ≠ p) :
    ∀ (l : List (String × Tier)),
      (l.map (fun x => if x.1 == q then (q, t) else x)).find? (fun x => x.1 == p)
        = l.find? (fun x => x.1 == p)
  | [] => rfl
  | a :: l => by
    rw [List.map_cons]
    by_cases ha : a.1 = q
    · have h1 : (a.1 == p) = false := beq_eq_false_iff_ne.mpr (ha ▸ hpq)
      have h2 : ((q, t).1 == p) = false := beq_eq_false_iff_ne.mpr hpq
      have he : (if a.1 == q then (q, t) else a) = (q, t) := by
        rw [if_pos (by exact beq_iff_eq.mpr ha)]
      rw [he, List.find?_cons_of_neg _ (by rw [h2]; exact Bool.false_ne_true),
        List.find?_cons_of_neg _ (by rw [h1]; exact Bool.false_ne_true)]
      exact find?_map_replace_other p q t hpq l
    · have ha' : (a.1 == q) = false := beq_eq_false_iff_ne.mpr ha
      have he : (if a.1 == q then (q, t) else a) = a := by rw [ha']; rfl
      rw [he]
      by_cases hp : a.1 = p
      · rw [List.find?_cons_of_pos _ (by exact beq_iff_eq.mpr hp),
          List.find?_cons_of_pos _ (by exact beq_iff_eq.mpr hp)]
      · have hp' : (a.1 == p) = false := beq_eq_false_iff_ne.mpr hp
        rw [List.find?_cons_of_neg _ (by rw [hp']; exact Bool.false_ne_true),
          List.find?_cons_of_neg _ (by rw [hp']; exact Bool.false_ne_true)]
        exact find?_map_replace_other p q t hpq l

theorem find?_append_eq {α : Type} (pred : α → Bool) :
    ∀ (l1 l2 : List α), (l1 ++ l2).find? pred =
      (match l1.find? pred with
       | some a => some a
       | none => l2.find? pred)
  | [], _ => rfl
  | a :: l1, l2 => by
    by_cases hp : pred a = true
    · rw [List.cons_append, List.find?_cons_of_pos _ hp, List.find?_cons_of_pos _ hp]
    · have hp' : pred a = false := by simpa using hp
      rw [List.cons_append,
        List.find?_cons_of_neg _ (by rw [hp']; exact Bool.false_ne_true),
        List.find?_cons_of_neg _ (by rw [hp']; exact Bool.false_ne_true)]
      exact find?_append_eq pred l1 l2

theorem resolvesTo_lnForce_self (l : List (String × Tier)) (p : String) (t : Tier) :
    resolvesTo (lnForce l p t) p = some t := by
  unfold lnForce
  by_cases h : l.any (fun q => q.1 == p) = true
  · simp only [resolvesTo, h, if_true]
    rw [find?_map_replace p t l h]
    rfl
  · have h' : l.any (fun q => q.1 == p) = false := bool_eq_false_of_ne_true h
    have hnone : l.find? (fun q => q.1 == p) = none :=
      List.find?_eq_none.mpr (List.any_eq_false.mp h')
    simp only [resolvesTo, h', Bool.false_eq_true, if_false]
    rw [find?_append_eq (fun q => q.1 == p) l [(p, t)], hnone]
    simp only [List.find?, beq_self_eq_true]
    rfl

theorem resolvesTo_lnForce_other (l : List (String × Tier)) (p q : String) (t : Tier)
    (hpq : q ≠ p) : resolvesTo (lnForce l q t) p = resolvesTo l p := by
  unfold lnForce
  by_cases h : l.any (fun x => x.1 == q) = true
  · simp only [resolvesTo, h, if_true]
    rw [find?_map_replace_other p q t hpq l]
  · have h' : l.any (fun x => x.1 == q) = false := bool_eq_false_of_ne_true h
    have h2 : ((q, t).1 == p) = false := beq_eq_false_iff_ne.mpr hpq
    simp only [resolvesTo, h', Bool.false_eq_true, if_false]
    rw [find?_append_eq (fun x => x.1 == p) l [(q, t)]]
    cases hf : l.find? (fun x => x.1 == p) with
    | none =>
      rw [List.find?_cons_of_neg _ (by rw [h2]; exact Bool.false_ne_true)]
      rfl
    | some a => rfl

theorem linkPass_cons (cfg : AgentConfig) (t : Tier) (x : String) (pkgs : List String)
    (l : List (String × Tier)) :
    linkPass cfg t (x :: pkgs) l =
      linkPass cfg t pkgs (if overrideHit cfg x then l else lnForce l x t) := rfl

theorem linkPass_skip (cfg : AgentConfig) (t : Tier) (p : String)
    (hp : overrideHit cfg p = true) :
    ∀ (pkgs : List String) (l : List (String × Tier)),
      resolvesTo (linkPass cfg t pkgs l) p = resolvesTo l p
  | [], _ => rfl
  | x :: pkgs, l => by
    rw [linkPass_cons]
    by_cases hx : overrideHit cfg x = true
    · rw [if_pos hx]
      exact linkPass_skip cfg t p hp pkgs l
    · have hxp : x ≠ p := fun hh => hx (hh ▸ hp)
      rw [if_neg (by simpa using hx), linkPass_skip cfg t p hp pkgs _,
        resolvesTo_lnForce_other l p x t hxp]

theorem linkPass_not_mem (cfg : AgentConfig) (t : Tier) (p : String) :
    ∀ (pkgs : List String) (l : List (String × Tier)), p ∉ pkgs →
      resolvesTo (linkPass cfg t pkgs l) p = resolvesTo l p
  | [], _, _ => rfl
  | x :: pkgs, l, hmem => by
    have hxp : x ≠ p := fun hh => hmem (hh ▸ List.mem_cons_self x pkgs)
    have hrest : p ∉ pkgs := fun hh => hmem (List.mem_cons_of_mem x hh)
    rw [linkPass_cons]
    by_cases hx : overrideHit cfg x = true
    · rw [if_pos hx]
      exact linkPass_not_mem cfg t p pkgs l hrest
    · rw [if_neg (by simpa using hx), linkPass_not_mem cfg t p pkgs _ hrest,
        resolvesTo_lnForce_other l p x t hxp]

theorem linkPass_hit (cfg : AgentConfig) (t : Tier) (p : String)
    (hp : overrideHit cfg p = false) :
    ∀ (pkgs : List String) (l : List (String × Tier)), p ∈ pkgs →
      resolvesTo (linkPass cfg t pkgs l) p = some t
  | [], _, hmem => absurd hmem (List.not_mem_nil p)
  | x :: pkgs, l, hmem => by
    rw [linkPass_cons]
    by_cases hrest : p ∈ pkgs
    · exact linkPass_hit cfg t p hp pkgs _ hrest
    · have hx : x = p := by
        rcases List.mem_cons.mp hmem with h | h
        · exact h.symm
        · exact absurd h hrest
      rw [hx, if_neg (by rw [hp]; exact Bool.false_ne_true),
        linkPass_not_mem cfg t p pkgs _ hrest]
      exact resolvesTo_lnForce_self l p t

theorem resolvesTo_nil (p : String) : resolvesTo [] p = none := rfl

/-! ## Claims C3 and C4: dependency-tier precedence -/

/-- C4: for an agent with `dependencyLevel = "team"` and a package name
present in both the core and the team tier and not matched by the
script's override test, the generated setup script links core first and
team afterwards with forced replacement (`ln -sf`), so the name resolves
to the team tier's entry (last write wins). -/
theorem c4_theorem (cfg : AgentConfig) (corePkgs teamPkgs : List String)
    (p : String) (hLevel : cfg.dependencyLevel = "team")
    (hCore : p ∈ corePkgs) (hTeam : p ∈ teamPkgs)
    (hOvr : overrideHit cfg p = false) :
    resolvesTo (runDepScript cfg true corePkgs true teamPkgs) p = some Tier.team := by
  have hc : (cfg.dependencyLevel == "team" && (true : Bool)) = true := by
    rw [hLevel]
    decide
  unfold runDepScript
  rw [if_pos hc]
  exact linkPass_hit cfg Tier.team p hOvr teamPkgs _ hTeam

/-- A team-level configuration with no overrides, used to instantiate C4. -/
def cfgTeam : AgentConfig :=
  { id := "a1", dependencyLevel := "team", teamID := "t1", overrideDeps := [],
    useOverlay := false, repoURL := "", branch := "", depth := 0, gitConfig := [] }

/-- Witness for C4 at a concrete input: package `lodash` in both tiers
resolves to the team tier. -/
theorem c4_witness :
    cfgTeam.dependencyLevel = "team" ∧ "lodash" ∈ ["lodash"] ∧
    overrideHit cfgTeam "lodash" = false ∧
    resolvesTo (runDepScript cfgTeam true ["lodash"] true ["lodash"]) "lodash"
      = some Tier.team :=
  ⟨rfl, by decide, by decide,
   c4_theorem cfgTeam ["lodash"] ["lodash"] "lodash" rfl (by decide) (by decide) (by decide)⟩

/-- A configuration whose override list names `lodash`, used for C3. -/
def cfgOvr : AgentConfig :=
  { id := "a1", dependencyLevel := "container", teamID := "", overrideDeps := ["lodash"],
    useOverlay := false, repoURL := "", branch := "", depth := 0, gitConfig := [] }

/-- C3 counterexample: with `lodash` in the override list and a
same-named package in the core tier, the generated setup run does *not*
make `lodash` resolve from the agent's container tier — the override
stanza of the script only logs the names, it creates no link. -/
theorem c3_counterexample :
    ¬ resolvesTo (runDepScript cfgOvr true ["lodash"] false []) "lodash"
        = some Tier.container := by
  decide

/-- C3 amended: a package name matched by the script's override test is
never symlinked at all — not from the core tier, not from the team tier,
and not from the container tier: its `node_modules` entry stays absent
(`resolvesTo … = none`); the script's override stanza merely echoes the
override names. -/
theorem c3_theorem (cfg : AgentConfig) (cm : Bool) (corePkgs : List String)
    (tm : Bool) (teamPkgs : List String) (p : String)
    (hOvr : overrideHit cfg p = true) :
    resolvesTo (runDepScript cfg cm corePkgs tm teamPkgs) p = none := by
  have hbase : resolvesTo (if cm then linkPass cfg Tier.core corePkgs [] else []) p
      = none := by
    cases cm
    · exact resolvesTo_nil p
    · show resolvesTo (linkPass cfg Tier.core corePkgs []) p = none
      rw [linkPass_skip cfg Tier.core p hOvr corePkgs []]
      exact resolvesTo_nil p
  unfold runDepScript
  by_cases h : (cfg.dependencyLevel == "team" && tm) = true
  · rw [if_pos h, linkPass_skip cfg Tier.team p hOvr teamPkgs _]
    exact hbase
  · rw [if_neg h]
    exact hbase

/-- Witness for C3's amended statement at a concrete input. -/
theorem c3_witness :
    overrideHit cfgOvr "lodash" = true ∧
    resolvesTo (runDepScript cfgOvr true ["lodash"] true ["lodash"]) "lodash" = none :=
  ⟨by decide, c3_theorem cfgOvr true ["lodash"] true ["lodash"] "lodash" (by decide)⟩

/-! ## Trace predicates -/

/-- An event that stops a container, or removes any container other than
the temporary image builder. -/
def cleanupEv : Ev → Bool
  | .containerStop _ => true
  | .containerRemove n => n != builderName
  | _ => false

/-- An event that executes a command inside a container. -/
def isExecEv : Ev → Bool
  | .execRun _ _ => true
  | _ => false

/-- The in-container commands a trace executes, in order. -/
def execCmdsOf (evs : List Ev) : List String :=
  evs.filterMap (fun e => match e with
    | .execRun _ c => some c
    | _ => none)

/-- Substring test on strings. -/
def hasSubstr (pat s : String) : Bool := containsList pat.data s.data

/-- Every event `ensureBaseImage` can emit is mapped to `false` by `f`,
hence so is its whole trace. -/
theorem ensure_trace_all (w : World) (m : Manager) (s : DState) (f : Ev → Bool)
    (h1 : f .imageList = false) (h2 : ∀ r, f (.imagePull r) = false)
    (h3 : ∀ n, f (.containerCreate n) = false)
    (h4 : ∀ n, f (.containerStart n) = false)
    (h5 : ∀ n, f (.containerWait n) = false)
    (h6 : ∀ n i, f (.containerCommit n i) = false)
    (h7' : f (.containerRemove builderName) = false) :
    (ensureBaseImage w m s).trace.any f = false := by
  simp only [ensureBaseImage]
  by_cases g1 : (!w.imageListOk) = true
  · rw [if_pos g1]; simp [h1]
  rw [if_neg g1]
  by_cases g2 : (w.imageTags.contains m.baseImageName) = true
  · rw [if_pos g2]; simp [h1]
  rw [if_neg g2]
  by_cases g3 : (!w.tempDirOk) = true
  · rw [if_pos g3]; simp [h1]
  rw [if_neg g3]
  by_cases g4 : (!w.writeFileOk) = true
  · rw [if_pos g4]; simp [h1]
  rw [if_neg g4]
  by_cases g5 : (!w.pullOk) = true
  · rw [if_pos g5]; simp [h1, h2]
  rw [if_neg g5]
  by_cases g6 : (!w.builderCreateOk) = true
  · rw [if_pos g6]; simp [h1, h2, h3]
  rw [if_neg g6]
  by_cases g7 : (!w.builderStartOk) = true
  · rw [if_pos g7]; simp [h1, h2, h3, h4]
  rw [if_neg g7]
  by_cases g8 : (!w.builderWaitOk) = true
  · rw [if_pos g8]; simp [h1, h2, h3, h4, h5]
  rw [if_neg g8]
  by_cases g9 : (!w.commitOk) = true
  · rw [if_pos g9]; simp [h1, h2, h3, h4, h5, h6]
  rw [if_neg g9]
  by_cases g10 : (!w.builderRemoveOk) = true
  · rw [if_pos g10]; simp [h1, h2, h3, h4, h5, h6, h7']
  rw [if_neg g10]
  simp [h1, h2, h3, h4, h5, h6, h7']

theorem ensure_no_cleanup (w : World) (m : Manager) (s : DState) :
    (ensureBaseImage w m s).trace.any cleanupEv = false :=
  ensure_trace_all w m s cleanupEv rfl (fun _ => rfl) (fun _ => rfl)
    (fun _ => rfl) (fun _ => rfl) (fun _ _ => rfl) (by decide)

theorem ensure_no_exec (w : World) (m : Manager) (s : DState) :
    (ensureBaseImage w m s).trace.any isExecEv = false :=
  ensure_trace_all w m s isExecEv rfl (fun _ => rfl) (fun _ => rfl)
    (fun _ => rfl) (fun _ => rfl) (fun _ _ => rfl) rfl

theorem exec_no_cleanup (w : World) (s : DState) (a c : String) :
    (exec w s a c).trace.any cleanupEv = false := by
  simp only [exec]
  by_cases g1 : (!w.listOk) = true
  · rw [if_pos g1]; rfl
  rw [if_neg g1]
  cases hf : findNamed (s.filter (fun c => c.running)) ("capsulate-" ++ a) with
  | none => rfl
  | some cid =>
    by_cases g2 : (!w.execInfraOk) = true
    · rw [if_pos g2]; rfl
    rw [if_neg g2]
    by_cases g3 : (w.execExit c != 0) = true
    · rw [if_pos g3]; rfl
    · rw [if_neg g3]; rfl

theorem applyGitConfigs_no_cleanup (w : World) (s : DState) (a : String) :
    ∀ kvs : List (String × String),
      (applyGitConfigs w s a kvs).trace.any cleanupEv = false
  | [] => rfl
  | kv :: rest => by
    cases h : (exec w s a (gitConfigCmdOf kv)).out with
    | error e => simp [applyGitConfigs, h, exec_no_cleanup]
    | ok o =>
      simp [applyGitConfigs, h, List.any_append, exec_no_cleanup,
        applyGitConfigs_no_cleanup w s a rest]

theorem setupGit_no_cleanup (w : World) (s : DState) (cfg : AgentConfig) :
    (setupGitRepository w s cfg).trace.any cleanupEv = false := by
  cases h : (exec w s cfg.id (cloneCmdOf cfg)).out with
  | error e => simp [setupGitRepository, h, exec_no_cleanup]
  | ok o =>
    simp [setupGitRepository, h, List.any_append, exec_no_cleanup,
      applyGitConfigs_no_cleanup]

/-- Every `mkdir` event is mapped to `false` by `f`, hence so is the
whole mount-preparation event list. -/
theorem planMounts_trace_all (w : World) (m : Manager) (cfg : AgentConfig) (ws : String)
    (f : Ev → Bool) (h : ∀ p, f (.mkdir p) = false) :
    (planMounts w m cfg ws).evs.any f = false := by
  simp only [planMounts]
  by_cases g1 : cfg.useOverlay = true
  · rw [if_pos g1]
    by_cases g2 : (cfg.dependencyLevel == "team" && cfg.teamID != "") = true
    · rw [if_pos g2]
      cases hf : m.teamDepsPath.find? (fun q => q.1 == cfg.teamID) with
      | none => simp [h]
      | some q => simp [h]
    · rw [if_neg g2]; simp [h]
  · rw [if_neg g1]
    by_cases g2 : (cfg.dependencyLevel == "team" && cfg.teamID != "") = true
    · rw [if_pos g2]
      cases hf : m.teamDepsPath.find? (fun q => q.1 == cfg.teamID) with
      | none => simp [h]
      | some q => simp [h]
    · rw [if_neg g2]; simp [h]

theorem planMounts_no_cleanup (w : World) (m : Manager) (cfg : AgentConfig) (ws : String) :
    (planMounts w m cfg ws).evs.any cleanupEv = false :=
  planMounts_trace_all w m cfg ws cleanupEv (fun _ => rfl)

theorem planMounts_no_exec (w : World) (m : Manager) (cfg : AgentConfig) (ws : String) :
    (planMounts w m cfg ws).evs.any isExecEv = false :=
  planMounts_trace_all w m cfg ws isExecEv (fun _ => rfl)

/-! ## Claim C1: no rollback on bootstrap failure -/

/-- C1 amended: on any bootstrap failure (overlay mount, dependency
setup, git clone, git config), `Create` returns the error *without*
stopping or removing the agent's container — in fact no execution of
`Create` ever issues a container stop, and the only removal it can issue
is of the temporary image-builder container inside `ensureBaseImage`. -/
theorem c1_theorem (w : World) (m : Manager) (s : DState) (cfg : AgentConfig) :
    (create w m s cfg).trace.any cleanupEv = false := by
  simp only [create]
  by_cases g1 : (!w.listOk) = true
  · rw [if_pos g1]; simp [List.any_append, ensure_no_cleanup, cleanupEv]
  rw [if_neg g1]
  by_cases g2 : ((ensureBaseImage w m s).state.any
      (fun c => c.names.contains ("/" ++ ("capsulate-" ++ cfg.id)))) = true
  · rw [if_pos g2]; simp [List.any_append, ensure_no_cleanup, cleanupEv]
  rw [if_neg g2]
  by_cases g3 : (!w.mkdirWorkspaceOk) = true
  · rw [if_pos g3]; simp [List.any_append, ensure_no_cleanup, cleanupEv]
  rw [if_neg g3]
  by_cases g4 : (!w.createOk) = true
  · rw [if_pos g4]
    simp [List.any_append, ensure_no_cleanup, planMounts_no_cleanup, cleanupEv]
  rw [if_neg g4]
  by_cases g5 : (!w.startOk) = true
  · rw [if_pos g5]
    simp [List.any_append, ensure_no_cleanup, planMounts_no_cleanup, cleanupEv]
  rw [if_neg g5]
  cases hb : (exec w (setRunning ((ensureBaseImage w m s).state ++
      [⟨"cid-" ++ ("capsulate-" ++ cfg.id), ["/" ++ ("capsulate-" ++ cfg.id)], false⟩])
      ("cid-" ++ ("capsulate-" ++ cfg.id)) true) cfg.id
      (if cfg.useOverlay then overlaySetupCmd else "mkdir -p /workspace/repo")).out with
  | error e =>
    simp [List.any_append, ensure_no_cleanup, planMounts_no_cleanup,
      exec_no_cleanup, cleanupEv]
  | ok o =>
    cases hd : (exec w (setRunning ((ensureBaseImage w m s).state ++
        [⟨"cid-" ++ ("capsulate-" ++ cfg.id), ["/" ++ ("capsulate-" ++ cfg.id)], false⟩])
        ("cid-" ++ ("capsulate-" ++ cfg.id)) true) cfg.id
        (generateDependencySetupScript cfg)).out with
    | error e =>
      simp [List.any_append, ensure_no_cleanup, planMounts_no_cleanup,
        exec_no_cleanup, cleanupEv]
    | ok o2 =>
      by_cases g6 : (cfg.repoURL != "") = true
      · rw [if_pos g6]
        simp [List.any_append, ensure_no_cleanup, planMounts_no_cleanup,
          exec_no_cleanup, setupGit_no_cleanup, cleanupEv]
      · rw [if_neg g6]
        simp [List.any_append, ensure_no_cleanup, planMounts_no_cleanup,
          exec_no_cleanup, cleanupEv]

/-- World of C1's counterexample: all calls succeed except the overlay
mount command, which exits 1. -/
def w1 : World :=
  { happyWorld with execExit := fun c => if c == overlaySetupCmd then 1 else 0 }

/-- Overlay-enabled configuration of C1's counterexample. -/
def cfg1 : AgentConfig :=
  { id := "a1", dependencyLevel := "core", teamID := "", overrideDeps := [],
    useOverlay := true, repoURL := "", branch := "", depth := 0, gitConfig := [] }

set_option maxRecDepth 10000 in
/-- C1 counterexample: the overlay mount fails after the container was
created and started; `Create` returns the error, yet the container
`capsulate-a1` is still present and running in the final runtime state —
a failed `Create` does leave the container running. -/
theorem c1_counterexample :
    (create w1 m0 [] cfg1).err = some "failed to set up overlay filesystem" ∧
    (create w1 m0 [] cfg1).state.any
      (fun c => c.names.contains "/capsulate-a1" && c.running) = true := by
  decide

/-! ## Claim C2: no validation of team-level configuration -/

/-- Team-level configuration with an empty team id (C2). -/
def cfg2 : AgentConfig :=
  { id := "a2", dependencyLevel := "team", teamID := "", overrideDeps := [],
    useOverlay := false, repoURL := "", branch := "", depth := 0, gitConfig := [] }

set_option maxRecDepth 10000 in
/-- C2 counterexample: with `dependencyLevel = "team"` and `teamId = ""`,
`Create` raises no validation error: it runs to completion and the
container is created. -/
theorem c2_counterexample :
    (create happyWorld m0 [] cfg2).err = none ∧
    (create happyWorld m0 [] cfg2).trace.contains (Ev.containerCreate "capsulate-a2")
      = true := by
  decide

/-- C2 amended: `Create` performs no `teamId` validation at all; with an
empty `teamId` the guard `dependencyLevel == "team" && teamID != ""`
simply fails, so the mount plan omits the team-deps mount and creation
proceeds (see the counterexample for the created container). -/
theorem c2_theorem (w : World) (m : Manager) (cfg : AgentConfig) (ws : String)
    (hTeam : cfg.teamID = "") :
    (planMounts w m cfg ws).mounts.any
      (fun mt => mt.target == "/workspace/team-deps") = false := by
  simp only [planMounts]
  have hcond : (cfg.dependencyLevel == "team" && cfg.teamID != "") = false := by
    rw [hTeam]
    simp
  rw [if_neg (fun h => Bool.false_ne_true (hcond ▸ h))]
  by_cases g1 : cfg.useOverlay = true
  · rw [if_pos g1]
    by_cases g2 : w.coreDepsExist = true
    · rw [if_pos g2]; simp
    · rw [if_neg g2]; simp
  · rw [if_neg g1]
    by_cases g2 : w.coreDepsExist = true
    · rw [if_pos g2]; simp
    · rw [if_neg g2]; simp

/-- Witness for C2's amended statement at a concrete input. -/
theorem c2_witness :
    cfg2.teamID = "" ∧
    (planMounts happyWorld m0 cfg2 "/ws/x").mounts.any
      (fun mt => mt.target == "/workspace/team-deps") = false :=
  ⟨rfl, c2_theorem happyWorld m0 cfg2 "/ws/x" rfl⟩

/-! ## Claim C9: the base-image error is discarded -/

/-- World in which the Docker image listing fails. -/
def w9 : World := { happyWorld with imageListOk := false }

/-- Configuration of C9's failing input. -/
def cfg9 : AgentConfig :=
  { id := "a9", dependencyLevel := "core", teamID := "", overrideDeps := [],
    useOverlay := false, repoURL := "", branch := "", depth := 0, gitConfig := [] }

set_option maxRecDepth 10000 in
/-- C9: at a state where the base-image check fails (image listing
error), `ensureBaseImage` returns an error, yet `Create` discards it
(manager.go 104, unchecked return value) and reports success — the
failure is not reflected in `Create`'s outcome. -/
theorem c9_theorem :
    (ensureBaseImage w9 m0 []).err = some "failed to list images" ∧
    (create w9 m0 [] cfg9).err = none := by
  decide

/-! ## Claim C7: the duplicate-id check comes after ensureBaseImage -/

/-- World in which the base image is absent, so `ensureBaseImage`
pulls ubuntu and runs the builder container. -/
def w7 : World := { happyWorld with imageTags := [] }

/-- Runtime state already holding a container named `capsulate-a1`. -/
def s7 : DState := [⟨"cid0", ["/capsulate-a1"], true⟩]

/-- Plain configuration with id `a1` (C7). -/
def cfg7 : AgentConfig :=
  { id := "a1", dependencyLevel := "core", teamID := "", overrideDeps := [],
    useOverlay := false, repoURL := "", branch := "", depth := 0, gitConfig := [] }

set_option maxRecDepth 10000 in
/-- C7 counterexample: the duplicate-id conflict is reported, but only
after `ensureBaseImage` has already pulled the ubuntu image (and run the
builder container) — an externally visible side effect performed before
the `AgentAlreadyExists` failure is surfaced. -/
theorem c7_counterexample :
    (create w7 m0 s7 cfg7).err = some "agent with ID \x27a1\x27 already exists" ∧
    (create w7 m0 s7 cfg7).trace.contains (Ev.imagePull "ubuntu:22.04") = true := by
  decide

/-- C7 amended: when a container with the agent's name already exists,
`Create` fails with the conflict error having performed, beyond the
container listing, only the `ensureBaseImage` call — which may pull or
build the base image first; no container for the agent is created or
started and no workspace directory is made. -/
theorem c7_theorem (w : World) (m : Manager) (s : DState) (cfg : AgentConfig)
    (hList : w.listOk = true)
    (hFound : (ensureBaseImage w m s).state.any
        (fun c => c.names.contains ("/" ++ ("capsulate-" ++ cfg.id))) = true) :
    create w m s cfg =
      { trace := (ensureBaseImage w m s).trace ++ [Ev.containerList true],
        state := (ensureBaseImage w m s).state, mgr := m,
        err := some ("agent with ID \x27" ++ cfg.id ++ "\x27 already exists") } := by
  simp only [create]
  have hnl : ¬((!w.listOk) = true) := by rw [hList]; decide
  rw [if_neg hnl, if_pos hFound]

/-- Witness for C7's amended statement at a concrete input. -/
theorem c7_witness :
    happyWorld.listOk = true ∧
    (ensureBaseImage happyWorld m0 s7).state.any
      (fun c => c.names.contains ("/" ++ ("capsulate-" ++ cfg7.id))) = true ∧
    create happyWorld m0 s7 cfg7 =
      { trace := (ensureBaseImage happyWorld m0 s7).trace ++ [Ev.containerList true],
        state := (ensureBaseImage happyWorld m0 s7).state, mgr := m0,
        err := some ("agent with ID \x27" ++ cfg7.id ++ "\x27 already exists") } :=
  ⟨rfl, by decide, c7_theorem happyWorld m0 s7 cfg7 rfl (by decide)⟩

/-! ## Exec resolution lemmas -/

/-- `Exec` on an agent whose container is not among the *running*
containers fails with the not-found/not-running error after the single
running-only listing. -/
theorem exec_not_found (w : World) (s : DState) (agentID cmd : String)
    (hList : w.listOk = true)
    (hRun : findNamed (s.filter (fun c => c.running)) ("capsulate-" ++ agentID) = none) :
    exec w s agentID cmd =
      { trace := [Ev.containerList false],
        out := .error ("agent \x27" ++ agentID ++ "\x27 not found or not running") } := by
  simp only [exec]
  have hnl : ¬((!w.listOk) = true) := by rw [hList]; decide
  rw [if_neg hnl, hRun]

/-- `Exec` on a found running container with a zero exit code returns
the command's stdout. -/
theorem exec_found (w : World) (s : DState) (agentID c cid : String)
    (hList : w.listOk = true)
    (hFind : findNamed (s.filter (fun x => x.running)) ("capsulate-" ++ agentID) = some cid)
    (hInfra : w.execInfraOk = true) (hExit : w.execExit c = 0) :
    exec w s agentID c =
      { trace := [Ev.containerList false, Ev.execRun ("capsulate-" ++ agentID) c],
        out := .ok (w.execOutput c) } := by
  simp only [exec]
  have hnl : ¬((!w.listOk) = true) := by rw [hList]; decide
  rw [if_neg hnl, hFind]
  have hni : ¬((!w.execInfraOk) = true) := by rw [hInfra]; decide
  rw [if_neg hni]
  have hne : ¬((w.execExit c != 0) = true) := by rw [hExit]; decide
  rw [if_neg hne]

/-- `Exec` on a found running container always executes the command;
its trace is listing plus the run, whatever the outcome. -/
theorem exec_found_trace (w : World) (s : DState) (agentID c cid : String)
    (hList : w.listOk = true)
    (hFind : findNamed (s.filter (fun x => x.running)) ("capsulate-" ++ agentID) = some cid) :
    (exec w s agentID c).trace
      = [Ev.containerList false, Ev.execRun ("capsulate-" ++ agentID) c] := by
  simp only [exec]
  have hnl : ¬((!w.listOk) = true) := by rw [hList]; decide
  rw [if_neg hnl, hFind]
  by_cases g1 : (!w.execInfraOk) = true
  · rw [if_pos g1]
  · rw [if_neg g1]
    by_cases g2 : (w.execExit c != 0) = true
    · rw [if_pos g2]
    · rw [if_neg g2]

/-- The lookup loop returns the id of a last, name-matching container. -/
theorem findNamed_append_match (l : DState) (e : Ctr) (cname : String)
    (he : e.names.contains ("/" ++ cname) = true) :
    findNamed (l ++ [e]) cname = some e.id := by
  unfold findNamed
  rw [List.foldl_append]
  simp only [List.foldl]
  rw [if_pos he]

/-- After `ContainerCreate` + `ContainerStart`, the running-only lookup
of the agent's name finds the just-started container (it is the last
entry, and its name matches). -/
theorem started_container_found (s0 : DState) (cname : String) :
    findNamed ((setRunning (s0 ++ [⟨"cid-" ++ cname, ["/" ++ cname], false⟩])
      ("cid-" ++ cname) true).filter (fun c => c.running)) cname
      = some ("cid-" ++ cname) := by
  unfold setRunning
  rw [List.map_append]
  have he : (fun c => if c.id == "cid-" ++ cname then { c with running := true } else c)
      (⟨"cid-" ++ cname, ["/" ++ cname], false⟩ : Ctr)
      = (⟨"cid-" ++ cname, ["/" ++ cname], true⟩ : Ctr) := by
    simp
  simp only [List.map, he]
  rw [List.filter_append]
  simp only [List.filter]
  exact findNamed_append_match _ _ _ (by simp)

/-! ## Claim C10: stopped containers — Exec vs Destroy -/

/-- C10: for an agent whose container exists in the runtime but is not
running, `Exec` (which lists only running containers) fails with the
not-found/not-running error — hence so do `GetGitStatus`, `CreateBranch`
and `CheckoutBranch` — while `Destroy` (which lists all containers)
finds the container and proceeds to stop and remove it. -/
theorem c10_theorem (w : World) (s : DState) (agentID cmd branchName : String)
    (co : Bool) (cid : String)
    (hList : w.listOk = true)
    (hAll : findNamed s ("capsulate-" ++ agentID) = some cid)
    (hRun : findNamed (s.filter (fun c => c.running)) ("capsulate-" ++ agentID) = none)
    (hStop : w.stopOk = true) (hRem : w.removeOk = true) :
    (exec w s agentID cmd).out
        = .error ("agent \x27" ++ agentID ++ "\x27 not found or not running") ∧
    (exec w s agentID cmd).trace = [Ev.containerList false] ∧
    (getGitStatus w s agentID).res = .error "failed to get current branch" ∧
    (createBranch w s agentID branchName co).err = some "failed to create branch" ∧
    (checkoutBranch w s agentID branchName).err = some "failed to checkout branch" ∧
    (destroy w s agentID).err = none ∧
    (destroy w s agentID).trace
        = [Ev.containerList true, Ev.containerStop ("capsulate-" ++ agentID),
           Ev.containerRemove ("capsulate-" ++ agentID)] := by
  have hex : ∀ c, exec w s agentID c =
      { trace := [Ev.containerList false],
        out := .error ("agent \x27" ++ agentID ++ "\x27 not found or not running") } :=
    fun c => exec_not_found w s agentID c hList hRun
  have hdes : destroy w s agentID =
      { trace := [Ev.containerList true, Ev.containerStop ("capsulate-" ++ agentID),
          Ev.containerRemove ("capsulate-" ++ agentID)],
        state := removeCtrId (setRunning s cid false) cid, err := none } := by
    have hnl : (!w.listOk) = false := by rw [hList]; rfl
    have hns : (!w.stopOk) = false := by rw [hStop]; rfl
    have hnr : (!w.removeOk) = false := by rw [hRem]; rfl
    simp [destroy, hAll, hnl, hns, hnr]
  refine ⟨?_, ?_, ?_, ?_, ?_, ?_, ?_⟩
  · rw [hex cmd]
  · rw [hex cmd]
  · simp [getGitStatus, hex]
  · simp [createBranch, hex]
  · simp [checkoutBranch, hex]
  · rw [hdes]
  · rw [hdes]

/-- Runtime state holding a stopped container for agent `a1`. -/
def s10 : DState := [⟨"cidA", ["/capsulate-a1"], false⟩]

/-- Witness for C10 at a concrete input. -/
theorem c10_witness :
    findNamed s10 ("capsulate-" ++ "a1") = some "cidA" ∧
    findNamed (s10.filter (fun c => c.running)) ("capsulate-" ++ "a1") = none ∧
    ((exec happyWorld s10 "a1" "ls").out
        = .error ("agent \x27" ++ "a1" ++ "\x27 not found or not running") ∧
     (exec happyWorld s10 "a1" "ls").trace = [Ev.containerList false] ∧
     (getGitStatus happyWorld s10 "a1").res = .error "failed to get current branch" ∧
     (createBranch happyWorld s10 "a1" "b" true).err = some "failed to create branch" ∧
     (checkoutBranch happyWorld s10 "a1" "b").err = some "failed to checkout branch" ∧
     (destroy happyWorld s10 "a1").err = none ∧
     (destroy happyWorld s10 "a1").trace
        = [Ev.containerList true, Ev.containerStop ("capsulate-" ++ "a1"),
           Ev.containerRemove ("capsulate-" ++ "a1")]) :=
  ⟨by decide, by decide,
   c10_theorem happyWorld s10 "a1" "ls" "b" true "cidA" rfl (by decide) (by decide) rfl rfl⟩

/-! ## Claim C6: the Git bootstrap is clone + config only -/

theorem execCmdsOf_append (a b : List Ev) :
    execCmdsOf (a ++ b) = execCmdsOf a ++ execCmdsOf b := by
  simp [execCmdsOf, List.filterMap_append]

/-- When the container is found and every config application exits 0,
the config loop executes exactly the config commands, in order. -/
theorem applyGitConfigs_ok (w : World) (s : DState) (agentID cid : String)
    (hList : w.listOk = true)
    (hFind : findNamed (s.filter (fun x => x.running)) ("capsulate-" ++ agentID) = some cid)
    (hInfra : w.execInfraOk = true) :
    ∀ kvs : List (String × String),
      (∀ kv ∈ kvs, w.execExit (gitConfigCmdOf kv) = 0) →
      execCmdsOf (applyGitConfigs w s agentID kvs).trace = kvs.map gitConfigCmdOf ∧
      (applyGitConfigs w s agentID kvs).err = none
  | [], _ => ⟨rfl, rfl⟩
  | kv :: rest, hall => by
    have h0 : w.execExit (gitConfigCmdOf kv) = 0 := hall kv (List.mem_cons_self kv rest)
    have ih := applyGitConfigs_ok w s agentID cid hList hFind hInfra rest
      (fun x hx => hall x (List.mem_cons_of_mem kv hx))
    simp only [applyGitConfigs]
    rw [exec_found w s agentID (gitConfigCmdOf kv) cid hList hFind hInfra h0]
    refine ⟨?_, ?_⟩
    · show execCmdsOf ([Ev.containerList false,
          Ev.execRun ("capsulate-" ++ agentID) (gitConfigCmdOf kv)]
          ++ (applyGitConfigs w s agentID rest).trace) = _
      rw [execCmdsOf_append, ih.1]
      rfl
    · exact ih.2

/-- C6 amended: for a configuration with a repository URL, the Git
bootstrap (`setupGitRepository`) executes exactly the clone command
(with its optional `--branch`/`--depth` flags) followed by the supplied
git-config applications, in order, and nothing else — in particular it
performs no separate branch creation or checkout afterwards; the branch
is selected only via `git clone --branch`. -/
theorem c6_theorem (w : World) (s : DState) (cfg : AgentConfig) (cid : String)
    (hList : w.listOk = true)
    (hFind : findNamed (s.filter (fun x => x.running)) ("capsulate-" ++ cfg.id) = some cid)
    (hInfra : w.execInfraOk = true)
    (hClone : w.execExit (cloneCmdOf cfg) = 0)
    (hCfg : ∀ kv ∈ cfg.gitConfig, w.execExit (gitConfigCmdOf kv) = 0) :
    execCmdsOf (setupGitRepository w s cfg).trace
      = cloneCmdOf cfg :: cfg.gitConfig.map gitConfigCmdOf ∧
    (setupGitRepository w s cfg).err = none := by
  have hac := applyGitConfigs_ok w s cfg.id cid hList hFind hInfra cfg.gitConfig hCfg
  simp only [setupGitRepository]
  rw [exec_found w s cfg.id (cloneCmdOf cfg) cid hList hFind hInfra hClone]
  refine ⟨?_, ?_⟩
  · show execCmdsOf ([Ev.containerList false,
        Ev.execRun ("capsulate-" ++ cfg.id) (cloneCmdOf cfg)]
        ++ (applyGitConfigs w s cfg.id cfg.gitConfig).trace) = _
    rw [execCmdsOf_append, hac.1]
    rfl
  · exact hac.2

/-- Configuration with repository URL, branch, depth and one git-config
pair (C6). -/
def cfg6 : AgentConfig :=
  { id := "a6", dependencyLevel := "core", teamID := "", overrideDeps := [],
    useOverlay := false, repoURL := "git@example.com:org/repo.git", branch := "feat",
    depth := 1, gitConfig := [("user.name", "Dev")] }

/-- Runtime state holding a running container for agent `a6`. -/
def s6 : DState := [⟨"cidA", ["/capsulate-a6"], true⟩]

/-- C6 counterexample: a concrete run of the Git bootstrap with a
repository URL, a branch, a depth and one git-config pair executes
exactly two commands — the clone (with `--branch`/`--depth`) and the
config application — and then returns: no branch-creation and no
checkout command is ever executed, contradicting the final step the
claim asserts. -/
theorem c6_counterexample :
    execCmdsOf (setupGitRepository happyWorld s6 cfg6).trace
      = ["git clone git@example.com:org/repo.git --branch feat --depth 1 /workspace/repo",
         "cd /workspace/repo && git config user.name \"Dev\""] ∧
    (execCmdsOf (setupGitRepository happyWorld s6 cfg6).trace).any
      (fun c => hasSubstr "git checkout" c || hasSubstr "git branch" c) = false := by
  decide

/-- Witness for C6's amended statement at a concrete input. -/
theorem c6_witness :
    findNamed (s6.filter (fun x => x.running)) ("capsulate-" ++ cfg6.id) = some "cidA" ∧
    (execCmdsOf (setupGitRepository happyWorld s6 cfg6).trace
      = cloneCmdOf cfg6 :: cfg6.gitConfig.map gitConfigCmdOf ∧
     (setupGitRepository happyWorld s6 cfg6).err = none) :=
  ⟨by decide,
   c6_theorem happyWorld s6 cfg6 "cidA" rfl (by decide) rfl rfl (by decide)⟩

/-! ## Claim C8: GetGitStatus aggregation -/

/-- C8: when all four status commands succeed and the working tree is
clean (empty modified/untracked outputs) with no upstream (the
ahead/behind command yields `"0 0"`), `GetGitStatus` aggregates the five
independent `Exec` calls into a `GitStatus` whose branch and commit are
the trimmed command outputs, whose file lists are empty, and whose
ahead/behind counts are zero. -/
theorem c8_theorem (w : World) (s : DState) (agentID cid : String)
    (hList : w.listOk = true)
    (hFind : findNamed (s.filter (fun x => x.running)) ("capsulate-" ++ agentID) = some cid)
    (hInfra : w.execInfraOk = true)
    (hB : w.execExit branchCmd = 0) (hC : w.execExit commitCmd = 0)
    (hM : w.execExit modifiedCmd = 0) (hU : w.execExit untrackedCmd = 0)
    (hA : w.execExit aheadBehindCmd = 0)
    (hMo : w.execOutput modifiedCmd = "")
    (hUo : w.execOutput untrackedCmd = "")
    (hAo : w.execOutput aheadBehindCmd = "0 0") :
    (getGitStatus w s agentID).res = .ok
      { branch := goTrimSpace (w.execOutput branchCmd),
        currentCommit := goTrimSpace (w.execOutput commitCmd),
        modifiedFiles := [], untrackedFiles := [],
        aheadCount := 0, behindCount := 0 } ∧
    execCmdsOf (getGitStatus w s agentID).trace
      = [branchCmd, commitCmd, modifiedCmd, untrackedCmd, aheadBehindCmd] := by
  simp only [getGitStatus]
  rw [exec_found w s agentID branchCmd cid hList hFind hInfra hB,
      exec_found w s agentID commitCmd cid hList hFind hInfra hC,
      exec_found w s agentID modifiedCmd cid hList hFind hInfra hM,
      exec_found w s agentID untrackedCmd cid hList hFind hInfra hU,
      exec_found w s agentID aheadBehindCmd cid hList hFind hInfra hA,
      hMo, hUo, hAo]
  exact ⟨rfl, rfl⟩

/-- World of C8's witness: branch and commit outputs end in a newline,
the tree is clean, no upstream. -/
def w8 : World :=
  { happyWorld with execOutput := fun c =>
      if c == branchCmd then "feat\n"
      else if c == commitCmd then "abc123\n"
      else if c == aheadBehindCmd then "0 0"
      else "" }

/-- Runtime state holding a running container for agent `a8`. -/
def s8 : DState := [⟨"cidA", ["/capsulate-a8"], true⟩]

/-- Witness for C8 at a concrete input: on a fresh, clean agent whose
configured branch is `feat`, the reported status has branch `feat`,
empty file lists and zero ahead/behind counts. -/
theorem c8_witness :
    findNamed (s8.filter (fun x => x.running)) ("capsulate-" ++ "a8") = some "cidA" ∧
    goTrimSpace (w8.execOutput branchCmd) = "feat" ∧
    ((getGitStatus w8 s8 "a8").res = .ok
      { branch := goTrimSpace (w8.execOutput branchCmd),
        currentCommit := goTrimSpace (w8.execOutput commitCmd),
        modifiedFiles := [], untrackedFiles := [],
        aheadCount := 0, behindCount := 0 } ∧
     execCmdsOf (getGitStatus w8 s8 "a8").trace
      = [branchCmd, commitCmd, modifiedCmd, untrackedCmd, aheadBehindCmd]) :=
  ⟨by decide, by decide,
   c8_theorem w8 s8 "a8" "cidA" rfl (by decide) rfl rfl rfl rfl rfl rfl
     (by decide) (by decide) (by decide)⟩

/-! ## Claim C5: overlay mount ordering -/

/-- C5: with overlay requested and the pre-steps succeeding, `Create`'s
trace decomposes as a prefix containing no in-container command
execution, then the container start, then immediately the overlay mount
execution, then the dependency-script execution, then everything else —
so the union mount runs strictly after the container is started and
strictly before the dependency setup script and any Git bootstrap
command. -/
theorem c5_theorem (w : World) (m : Manager) (s : DState) (cfg : AgentConfig)
    (hOverlay : cfg.useOverlay = true)
    (hList : w.listOk = true)
    (hAbsent : ((ensureBaseImage w m s).state.any
        (fun c => c.names.contains ("/" ++ ("capsulate-" ++ cfg.id)))) = false)
    (hMk : w.mkdirWorkspaceOk = true)
    (hCreate : w.createOk = true) (hStart : w.startOk = true)
    (hInfra : w.execInfraOk = true)
    (hMount : w.execExit overlaySetupCmd = 0) :
    ∃ pre post,
      (create w m s cfg).trace =
        pre ++ Ev.containerStart ("capsulate-" ++ cfg.id) ::
          Ev.containerList false ::
          Ev.execRun ("capsulate-" ++ cfg.id) overlaySetupCmd ::
          Ev.containerList false ::
          Ev.execRun ("capsulate-" ++ cfg.id) (generateDependencySetupScript cfg) :: post ∧
      pre.any isExecEv = false := by
  have hfind := started_container_found (ensureBaseImage w m s).state ("capsulate-" ++ cfg.id)
  have hrb := exec_found w
    (setRunning ((ensureBaseImage w m s).state ++
      [⟨"cid-" ++ ("capsulate-" ++ cfg.id), ["/" ++ ("capsulate-" ++ cfg.id)], false⟩])
      ("cid-" ++ ("capsulate-" ++ cfg.id)) true)
    cfg.id overlaySetupCmd ("cid-" ++ ("capsulate-" ++ cfg.id)) hList hfind hInfra hMount
  have hrdt := exec_found_trace w
    (setRunning ((ensureBaseImage w m s).state ++
      [⟨"cid-" ++ ("capsulate-" ++ cfg.id), ["/" ++ ("capsulate-" ++ cfg.id)], false⟩])
      ("cid-" ++ ("capsulate-" ++ cfg.id)) true)
    cfg.id (generateDependencySetupScript cfg) ("cid-" ++ ("capsulate-" ++ cfg.id))
    hList hfind
  have hnl : ¬((!w.listOk) = true) := by rw [hList]; decide
  have hna : ¬(((ensureBaseImage w m s).state.any
      (fun c => c.names.contains ("/" ++ ("capsulate-" ++ cfg.id)))) = true) := by
    rw [hAbsent]; decide
  have hnm : ¬((!w.mkdirWorkspaceOk) = true) := by rw [hMk]; decide
  have hnc : ¬((!w.createOk) = true) := by rw [hCreate]; decide
  have hns : ¬((!w.startOk) = true) := by rw [hStart]; decide
  have hrbt := exec_found_trace w
    (setRunning ((ensureBaseImage w m s).state ++
      [⟨"cid-" ++ ("capsulate-" ++ cfg.id), ["/" ++ ("capsulate-" ++ cfg.id)], false⟩])
      ("cid-" ++ ("capsulate-" ++ cfg.id)) true)
    cfg.id overlaySetupCmd ("cid-" ++ ("capsulate-" ++ cfg.id)) hList hfind
  simp only [create]
  rw [if_neg hnl, if_neg hna, if_neg hnm, if_neg hnc, if_neg hns]
  have hcmd : (if cfg.useOverlay then overlaySetupCmd else "mkdir -p /workspace/repo")
      = overlaySetupCmd := by
    rw [hOverlay]
    rfl
  rw [hcmd]
  cases hrbo : (exec w
      (setRunning ((ensureBaseImage w m s).state ++
        [⟨"cid-" ++ ("capsulate-" ++ cfg.id), ["/" ++ ("capsulate-" ++ cfg.id)], false⟩])
        ("cid-" ++ ("capsulate-" ++ cfg.id)) true)
      cfg.id overlaySetupCmd).out with
  | error a =>
    rw [hrb] at hrbo
    simp at hrbo
  | ok a =>
    cases hrd : (exec w
        (setRunning ((ensureBaseImage w m s).state ++
          [⟨"cid-" ++ ("capsulate-" ++ cfg.id), ["/" ++ ("capsulate-" ++ cfg.id)], false⟩])
          ("cid-" ++ ("capsulate-" ++ cfg.id)) true)
        cfg.id (generateDependencySetupScript cfg)).out with
    | error e =>
      refine ⟨(ensureBaseImage w m s).trace ++ Ev.containerList true ::
          Ev.mkdir (joinPath m.workspaceDir (".capsulate/workspaces/" ++ cfg.id)) ::
          ((planMounts w m cfg
              (joinPath m.workspaceDir (".capsulate/workspaces/" ++ cfg.id))).evs
            ++ [Ev.containerCreate ("capsulate-" ++ cfg.id)]), [], ?_, ?_⟩
      · simp [hrbt, hrdt, List.append_assoc]
      · simp [List.any_append, List.any_cons, ensure_no_exec, planMounts_no_exec, isExecEv]
    | ok o =>
      by_cases g6 : (cfg.repoURL != "") = true
      · refine ⟨(ensureBaseImage w m s).trace ++ Ev.containerList true ::
            Ev.mkdir (joinPath m.workspaceDir (".capsulate/workspaces/" ++ cfg.id)) ::
            ((planMounts w m cfg
                (joinPath m.workspaceDir (".capsulate/workspaces/" ++ cfg.id))).evs
              ++ [Ev.containerCreate ("capsulate-" ++ cfg.id)]),
          (setupGitRepository w
            (setRunning ((ensureBaseImage w m s).state ++
              [⟨"cid-" ++ ("capsulate-" ++ cfg.id), ["/" ++ ("capsulate-" ++ cfg.id)], false⟩])
              ("cid-" ++ ("capsulate-" ++ cfg.id)) true) cfg).trace, ?_, ?_⟩
        · rw [if_pos g6]
          simp [hrbt, hrdt, List.append_assoc]
        · simp [List.any_append, List.any_cons, ensure_no_exec, planMounts_no_exec, isExecEv]
      · refine ⟨(ensureBaseImage w m s).trace ++ Ev.containerList true ::
            Ev.mkdir (joinPath m.workspaceDir (".capsulate/workspaces/" ++ cfg.id)) ::
            ((planMounts w m cfg
                (joinPath m.workspaceDir (".capsulate/workspaces/" ++ cfg.id))).evs
              ++ [Ev.containerCreate ("capsulate-" ++ cfg.id)]), [], ?_, ?_⟩
        · rw [if_neg g6]
          simp [hrbt, hrdt, List.append_assoc]
        · simp [List.any_append, List.any_cons, ensure_no_exec, planMounts_no_exec, isExecEv]

/-- Overlay-enabled configuration of C5's witness. -/
def cfg5 : AgentConfig :=
  { id := "a5", dependencyLevel := "core", teamID := "", overrideDeps := [],
    useOverlay := true, repoURL := "", branch := "", depth := 0, gitConfig := [] }

/-- Witness for C5 at a concrete input. -/
theorem c5_witness :
    cfg5.useOverlay = true ∧
    (∃ pre post,
      (create happyWorld m0 [] cfg5).trace =
        pre ++ Ev.containerStart ("capsulate-" ++ cfg5.id) ::
          Ev.containerList false ::
          Ev.execRun ("capsulate-" ++ cfg5.id) overlaySetupCmd ::
          Ev.containerList false ::
          Ev.execRun ("capsulate-" ++ cfg5.id) (generateDependencySetupScript cfg5) :: post ∧
      pre.any isExecEv = false) :=
  ⟨rfl, c5_theorem happyWorld m0 [] cfg5 rfl rfl (by decide) rfl rfl rfl rfl rfl⟩

end Capsulate
